import Mathlib

/-!
Shallow embedding of the real-time fan-out and subscription-management core
of the gas-monitoring backend (src/Gas-monitoring-backend28/server.js).

The JavaScript state (the module-level `clients` object) holds two role sets
and an object mapping device ids to Sets of subscribed sockets.  JS `Set`s
are modelled as duplicate-free `List`s with insertion-order append (`Set.add`
appends only when absent); the `deviceSubscriptions` object is modelled as an
association list with unique keys in insertion order.  Per-socket mutable
attributes (`lastActivity`, `readyState`) are modelled as functions from
connection handles to numbers.  `WebSocket.OPEN` is the numeric ready-state
constant 1 (server.js itself compares `readyState === 1` in
`broadcastTelemetry` with a comment naming `WebSocket.OPEN`).
-/

/-- An opaque connection handle (one per WebSocket object). -/
structure Conn where
  id : Nat
deriving DecidableEq, Repr

/-- The module-level `clients` registry of server.js: consumer set, producer
set, and the deviceSubscriptions object (device id to subscriber set). -/
structure Clients where
  consumers : List Conn
  producers : List Conn
  deviceSubscriptions : List (String × List Conn)
deriving DecidableEq, Repr

/-- A parsed inbound/outbound JSON payload.  Only the fields server.js reads
are modelled; `none` means the key is absent (JS `undefined`). -/
structure MsgData where
  type : Option String
  deviceId : Option String
  device : Option String
  timestamp : Option String
  temperature : Option Int
deriving DecidableEq, Repr

/-- JS truthiness of a possibly-absent string: absent (`undefined`/`null`)
and the empty string are falsy. -/
def truthyS : Option String → Bool
  | some s => s ≠ ""
  | none => false

/-- JS `a || b` on possibly-absent strings: yields `b` when `a` is falsy. -/
def jsOrS (a b : Option String) : Option String :=
  if truthyS a then a else b

/-- `new Date().toISOString()`: a timestamp string derived from the clock. -/
def tsOf (now : Nat) : String := toString now

/-- JS `Set.add`: appends the element unless already present. -/
def setAdd (l : List Conn) (c : Conn) : List Conn :=
  if l.contains c then l else l ++ [c]

/-- Lookup of `clients.deviceSubscriptions[d]` (first entry with key `d`). -/
def lookupSubs (subs : List (String × List Conn)) (d : String) :
    Option (List Conn) :=
  (subs.find? (fun p => p.1 == d)).map Prod.snd

/-- The subscribe operation of server.js lines 78-82: create the device's
set when absent, then `Set.add` the socket. -/
def subsAdd (subs : List (String × List Conn)) (d : String) (c : Conn) :
    List (String × List Conn) :=
  match subs.find? (fun p => p.1 == d) with
  | some _ => subs.map (fun p => if p.1 == d then (p.1, setAdd p.2 c) else p)
  | none => subs ++ [(d, [c])]

/-- server.js lines 158-159: whether the socket is a member of any device's
subscriber set. -/
def isSubscribedToSpecificDevice (subs : List (String × List Conn))
    (c : Conn) : Bool :=
  subs.any (fun p => p.2.contains c)

/-- The so-far untimestamped telemetry payload is stamped when its
`timestamp` field is falsy (server.js lines 133-135). -/
def ensureTimestamp (data : MsgData) (now : Nat) : MsgData :=
  if truthyS data.timestamp then data else { data with timestamp := some (tsOf now) }

/-- The first loop of `broadcastTelemetry` (server.js lines 146-153): when
the resolved device id is truthy and its subscription entry exists, the open
members of that device's subscriber set, in set order. -/
def telemetrySubsTargets (st : Clients) (ready : Conn → Nat)
    (data0 : MsgData) : List Conn :=
  let deviceId := jsOrS data0.deviceId data0.device
  if truthyS deviceId then
    match lookupSubs st.deviceSubscriptions (deviceId.getD "") with
    | some cs => cs.filter (fun c => ready c == 1)
    | none => []
  else []

/-- The second loop of `broadcastTelemetry` (server.js lines 156-165): every
open consumer that is a member of no device's subscriber set. -/
def telemetryUnfilteredTargets (st : Clients) (ready : Conn → Nat) :
    List Conn :=
  st.consumers.filter
    (fun c => !isSubscribedToSpecificDevice st.deviceSubscriptions c
      && ready c == 1)

/-- All recipients of one `broadcastTelemetry` call, in send order. -/
def telemetryRecipients (st : Clients) (ready : Conn → Nat)
    (data0 : MsgData) : List Conn :=
  telemetrySubsTargets st ready data0 ++ telemetryUnfilteredTargets st ready

/-- `broadcastTelemetry` (server.js lines 129-169).  Resolves the device id
as `data.deviceId || data.device`; sends the serialized event first to every
open member of that device's subscriber set (when the id is truthy and the
entry exists), then to every open consumer that is a member of no device's
subscriber set.  Returns the list of (recipient, message) sends and the
`subscriberCount` incremented once per send. -/
def broadcastTelemetry (st : Clients) (ready : Conn → Nat) (data0 : MsgData)
    (now : Nat) : List (Conn × MsgData) × Nat :=
  let sends := (telemetryRecipients st ready data0).map
    (fun c => (c, ensureTimestamp data0 now))
  (sends, sends.length)

/-- `broadcastAlarm` (server.js lines 172-185): the message takes a fresh
timestamp unless the payload carries its own `timestamp` key (the spread
`...data` comes after the fresh timestamp), and is sent to every open
consumer, ignoring subscriptions. -/
def broadcastAlarm (st : Clients) (ready : Conn → Nat) (data : MsgData)
    (now : Nat) : List (Conn × MsgData) :=
  let msg := if data.timestamp = none
    then { data with timestamp := some (tsOf now) } else data
  (st.consumers.filter (fun c => ready c == 1)).map (fun c => (c, msg))

/-- Frames server.js writes back to a single socket. -/
inductive OutMsg where
  | pong (timestamp : String)
  | subscriptionConfirmed (deviceId : String) (timestamp : String)
  | telemetryEvent (data : MsgData)
  | alarmEvent (data : MsgData)
deriving DecidableEq, Repr

/-- Result of one run of the `ws.on('message')` handler: the registry state,
the per-socket lastActivity map, and the writes performed. -/
structure HandleResult where
  clients : Clients
  lastActivity : Conn → Nat
  sends : List (Conn × OutMsg)

/-- The `ws.on('message')` handler (server.js lines 61-96).  `parsed = none`
models `JSON.parse` throwing: the catch block only logs, so nothing changes
and nothing is sent.  On success `ws.lastActivity` is refreshed before the
type dispatch, so every parsed frame (known type or not) refreshes it. -/
def handleMessage (st : Clients) (last ready : Conn → Nat) (ws : Conn)
    (parsed : Option MsgData) (now : Nat) : HandleResult :=
  match parsed with
  | none => ⟨st, last, []⟩
  | some data =>
    let last1 := Function.update last ws now
    if data.type = some "telemetry" then
      ⟨st, last1, (broadcastTelemetry st ready data now).1.map
        (fun s => (s.1, OutMsg.telemetryEvent s.2))⟩
    else if data.type = some "alarm" then
      ⟨st, last1, (broadcastAlarm st ready data now).map
        (fun s => (s.1, OutMsg.alarmEvent s.2))⟩
    else if data.type = some "ping" then
      ⟨st, last1, [(ws, OutMsg.pong (tsOf now))]⟩
    else if data.type = some "subscribe" then
      if truthyS data.deviceId then
        ⟨{ st with deviceSubscriptions :=
            subsAdd st.deviceSubscriptions (data.deviceId.getD "") ws },
          last1,
          [(ws, OutMsg.subscriptionConfirmed (data.deviceId.getD "") (tsOf now))]⟩
      else ⟨st, last1, []⟩
    else ⟨st, last1, []⟩

/-- The `wss.on('connection')` admit handler (server.js lines 26-52), state
part: `clientType` defaults to consumer via `|| 'consumer'`; a producer goes
in the producer set; a consumer goes in the consumer set and, when the
`deviceId` query parameter is truthy, into that device's subscriber set.
(The handler also stamps `lastActivity` and writes a connection-confirmation
frame; no claim depends on those effects.) -/
def handleConnection (st : Clients) (ws : Conn)
    (clientTypeParam deviceIdParam : Option String) : Clients :=
  let clientType := (jsOrS clientTypeParam (some "consumer")).getD "consumer"
  if clientType = "producer" then
    { st with producers := setAdd st.producers ws }
  else
    let st1 := { st with consumers := setAdd st.consumers ws }
    if truthyS deviceIdParam then
      { st1 with deviceSubscriptions :=
          subsAdd st1.deviceSubscriptions (deviceIdParam.getD "") ws }
    else st1

/-- The `ws.on('close')` handler (server.js lines 99-116): delete the socket
from both role sets and from every device's subscriber set, then delete
every subscription entry whose set is now empty. -/
def handleClose (st : Clients) (c : Conn) : Clients :=
  let subs1 := st.deviceSubscriptions.map
    (fun p => (p.1, p.2.filter (fun x => x != c)))
  { consumers := st.consumers.filter (fun x => x != c)
    producers := st.producers.filter (fun x => x != c)
    deviceSubscriptions := subs1.filter (fun p => p.2.length != 0) }

/-- server.js line 241/254: a socket is idle when `now - lastActivity`
exceeds 120000 ms (truncated subtraction agrees with the JS comparison,
whose result is also false when `lastActivity` is in the future). -/
def idle (last : Conn → Nat) (now : Nat) (c : Conn) : Bool :=
  120000 < now - last c

/-- Result of one heartbeat sweep tick: the registry state plus the sockets
terminated and the sockets pinged during the tick. -/
structure SweepResult where
  clients : Clients
  terminated : List Conn
  pinged : List Conn
deriving DecidableEq, Repr

/-- One tick of the `startHeartbeat` interval (server.js lines 234-279).
Each `Set.forEach` visits every member present at the tick exactly once and
the body deletes only the member being visited, so the surviving role sets
are the non-idle members and each idle member is terminated.  Idle producers
are deleted only from the producer set; idle consumers are additionally
deleted from every device's subscriber set; then every subscription entry
left empty is deleted.  Non-idle sockets whose readyState is OPEN (1) are
pinged. -/
def sweepTick (st : Clients) (last ready : Conn → Nat) (now : Nat) :
    SweepResult :=
  let termP := st.producers.filter (fun c => idle last now c)
  let keepP := st.producers.filter (fun c => !idle last now c)
  let termC := st.consumers.filter (fun c => idle last now c)
  let keepC := st.consumers.filter (fun c => !idle last now c)
  let subs1 := st.deviceSubscriptions.map
    (fun p => (p.1, p.2.filter (fun c => !termC.contains c)))
  let subs2 := subs1.filter (fun p => p.2.length != 0)
  { clients := ⟨keepC, keepP, subs2⟩
    terminated := termP ++ termC
    pinged := keepP.filter (fun c => ready c == 1)
      ++ keepC.filter (fun c => ready c == 1) }

/-- A sweep tick followed by the `ws.on('close')` handler of each socket the
tick terminated: `client.terminate()` destroys the socket and fires its
close event, so each terminated socket's close cleanup runs before the next
tick. -/
def sweepWithCloses (st : Clients) (last ready : Conn → Nat) (now : Nat) :
    Clients :=
  let r := sweepTick st last ready now
  r.terminated.foldl handleClose r.clients

/-! ### Helper lemmas about the set and index operations -/

/-- Membership in a JS `Set` after `add`: the old members plus the element. -/
theorem mem_setAdd {l : List Conn} {x c : Conn} :
    x ∈ setAdd l c ↔ x ∈ l ∨ x = c := by
  unfold setAdd
  split
  · rename_i h
    constructor
    · exact Or.inl
    · rintro (hx | rfl)
      · exact hx
      · simpa using h
  · simp [List.mem_append]

/-- `Set.add` inserts the element. -/
theorem mem_setAdd_self (l : List Conn) (c : Conn) : c ∈ setAdd l c :=
  mem_setAdd.mpr (Or.inr rfl)

/-- `Set.add` keeps the old members. -/
theorem mem_setAdd_of_mem {l : List Conn} {x : Conn} (c : Conn)
    (h : x ∈ l) : x ∈ setAdd l c :=
  mem_setAdd.mpr (Or.inl h)

/-- Every member of an entry of `subsAdd subs d c` is either `c` or a member
of some entry of `subs`. -/
theorem subsAdd_mem_cases {subs : List (String × List Conn)} {d : String}
    {c : Conn} {p : String × List Conn} {x : Conn}
    (hp : p ∈ subsAdd subs d c) (hx : x ∈ p.2) :
    x = c ∨ ∃ q ∈ subs, x ∈ q.2 := by
  unfold subsAdd at hp
  split at hp
  · obtain ⟨q, hq, rfl⟩ := List.mem_map.mp hp
    by_cases hk : (q.1 == d) = true
    · simp only [hk, if_true] at hx
      rcases mem_setAdd.mp hx with hold | rfl
      · exact Or.inr ⟨q, hq, hold⟩
      · exact Or.inl rfl
    · simp only [hk, if_false] at hx
      exact Or.inr ⟨q, hq, hx⟩
  · rcases List.mem_append.mp hp with hq | hq
    · exact Or.inr ⟨p, hq, hx⟩
    · simp only [List.mem_singleton] at hq
      subst hq
      simp only [List.mem_singleton] at hx
      exact Or.inl hx

/-- The per-entry update of `subsAdd` never changes an entry's key. -/
theorem subsAdd_key_pred (d d' : String) (c : Conn) :
    ((fun p : String × List Conn => p.1 == d') ∘
        (fun p : String × List Conn => if p.1 == d then (p.1, setAdd p.2 c) else p))
      = (fun p : String × List Conn => p.1 == d') := by
  funext p
  by_cases hk : p.1 = d <;> simp [hk]

/-- Subscribing to device `d` leaves every other device's lookup unchanged. -/
theorem lookupSubs_subsAdd_ne (subs : List (String × List Conn))
    (d d' : String) (c : Conn) (h : d' ≠ d) :
    lookupSubs (subsAdd subs d c) d' = lookupSubs subs d' := by
  unfold subsAdd
  split
  · unfold lookupSubs
    rw [List.find?_map, subsAdd_key_pred]
    cases hf : subs.find? (fun p => p.1 == d') with
    | none => simp
    | some e =>
      have he := List.find?_some hf
      rw [beq_iff_eq] at he
      have hne : ¬ (e.1 == d) = true := by
        rw [beq_iff_eq, he]
        exact h
      simp only [Option.map_some, Option.map_map]
      have : (fun p : String × List Conn =>
          if p.1 == d then (p.1, setAdd p.2 c) else p) e = e := by
        simp [hne]
      simp [this]
      rw [if_neg (fun hdd => h (he.symm.trans hdd))]
  · unfold lookupSubs
    rw [List.find?_append]
    have hsingle : List.find?
        (fun p : String × List Conn => p.1 == d') [(d, [c])] = none := by
      simp only [List.find?_singleton]
      have : ¬ (((d, [c]) : String × List Conn).1 == d') = true := by
        rw [beq_iff_eq]
        exact fun hdd => h hdd.symm
      simp [this]
    rw [hsingle, Option.or_none]

/-- After `subsAdd subs d c`, device `d` has an entry and `c` is in it. -/
theorem lookupSubs_subsAdd_self (subs : List (String × List Conn))
    (d : String) (c : Conn) :
    ∃ cs, lookupSubs (subsAdd subs d c) d = some cs ∧ c ∈ cs := by
  unfold subsAdd
  split
  · rename_i e hf
    refine ⟨setAdd e.2 c, ?_, mem_setAdd_self _ _⟩
    unfold lookupSubs
    rw [List.find?_map, subsAdd_key_pred, hf]
    have he := List.find?_some hf
    rw [beq_iff_eq] at he
    simp [he]
  · rename_i hf
    refine ⟨[c], ?_, List.mem_singleton.mpr rfl⟩
    unfold lookupSubs
    rw [List.find?_append, hf]
    simp

/-! ### Claim theorems -/

/-- C5: a frame that fails to parse is logged and dropped: the registry and
subscription state are unchanged, the lastActivity map is unchanged, nothing
is written back, and the handler (a total function) neither closes the
connection nor lets an exception escape — the catch block of server.js
lines 93-95 only logs. -/
theorem malformed_frame_is_noop (st : Clients) (last ready : Conn → Nat)
    (ws : Conn) (now : Nat) :
    handleMessage st last ready ws none now
      = ⟨st, last, []⟩ := rfl

/-- C6: broadcastAlarm's send list is identical under any producer set and
any device-subscription state, and its recipients are exactly the open
consumer connections, in consumer-set order. -/
theorem alarm_reaches_all_open_consumers (cons prods prods2 : List Conn)
    (subs subs2 : List (String × List Conn)) (ready : Conn → Nat)
    (data : MsgData) (now : Nat) :
    broadcastAlarm ⟨cons, prods, subs⟩ ready data now
      = broadcastAlarm ⟨cons, prods2, subs2⟩ ready data now ∧
    (broadcastAlarm ⟨cons, prods, subs⟩ ready data now).map Prod.fst
      = cons.filter (fun c => ready c == 1) := by
  refine ⟨rfl, ?_⟩
  simp only [broadcastAlarm, List.map_map]
  exact List.map_id _

/-- C7: neither the close handler nor a sweep tick leaves a device entry
with an empty subscriber set: both end by deleting every entry whose set
has size 0 (server.js lines 110-115 and 270-275). -/
theorem no_empty_subscription_entries (st : Clients) (c : Conn)
    (last ready : Conn → Nat) (now : Nat) :
    (∀ p ∈ (handleClose st c).deviceSubscriptions, p.2 ≠ []) ∧
    (∀ p ∈ (sweepTick st last ready now).clients.deviceSubscriptions,
      p.2 ≠ []) := by
  constructor
  · intro p hp
    have h2 := (List.mem_filter.mp hp).2
    intro hnil
    rw [hnil] at h2
    simp at h2
  · intro p hp
    have h2 := (List.mem_filter.mp hp).2
    intro hnil
    rw [hnil] at h2
    simp at h2

/-- C3: a sweep tick pings exactly the registered connections that are not
past the idle deadline and whose channel is open; the sweep is a total
function, so it completes for every input state without failing. -/
theorem sweep_pings_live_open_connections (st : Clients)
    (last ready : Conn → Nat) (now : Nat) (c : Conn) :
    c ∈ (sweepTick st last ready now).pinged ↔
      ((c ∈ st.producers ∨ c ∈ st.consumers) ∧ idle last now c = false ∧
        ready c = 1) := by
  simp only [sweepTick, List.mem_append, List.mem_filter,
    Bool.not_eq_true', beq_iff_eq]
  tauto

/-- Closed instance of the sweep-ping property: a fresh open consumer is
pinged by the tick. -/
theorem sweep_pings_witness :
    (⟨1⟩ : Conn) ∈ (sweepTick ⟨[⟨1⟩], [], []⟩ (fun _ => 0)
      (fun _ => 1) 5).pinged :=
  (sweep_pings_live_open_connections ⟨[⟨1⟩], [], []⟩ (fun _ => 0)
    (fun _ => 1) 5 ⟨1⟩).mpr ⟨Or.inr (by decide), by decide, rfl⟩

/-- C9: broadcastTelemetry's returned count equals the number of sends it
performed, and every send goes to a recipient whose channel is open — a
computed recipient whose readyState is not 1 is skipped by both loops and
never counted (server.js lines 148, 161). -/
theorem telemetry_count_matches_open_deliveries (st : Clients)
    (ready : Conn → Nat) (data : MsgData) (now : Nat) :
    (broadcastTelemetry st ready data now).2
      = (broadcastTelemetry st ready data now).1.length ∧
    (∀ s ∈ (broadcastTelemetry st ready data now).1, ready s.1 = 1) := by
  refine ⟨rfl, ?_⟩
  intro s hs
  simp only [broadcastTelemetry, List.mem_map] at hs
  obtain ⟨c, hc, rfl⟩ := hs
  simp only [telemetryRecipients, List.mem_append] at hc
  rcases hc with h | h
  · simp only [telemetrySubsTargets] at h
    split at h
    · split at h
      · have := (List.mem_filter.mp h).2
        simpa using this
      · simp at h
    · simp at h
  · have := (List.mem_filter.mp h).2
    simp only [Bool.and_eq_true, beq_iff_eq] at this
    exact this.2

/-- Closed instance of the count property at a concrete state: the count is
the number of sends and the single send goes to the open subscriber. -/
theorem telemetry_count_witness :
    (broadcastTelemetry ⟨[⟨1⟩, ⟨2⟩], [], [("d1", [⟨1⟩, ⟨2⟩])]⟩
        (fun c => if c = ⟨1⟩ then 1 else 3)
        ⟨some "telemetry", some "d1", none, none, none⟩ 9).2
      = (broadcastTelemetry ⟨[⟨1⟩, ⟨2⟩], [], [("d1", [⟨1⟩, ⟨2⟩])]⟩
        (fun c => if c = ⟨1⟩ then 1 else 3)
        ⟨some "telemetry", some "d1", none, none, none⟩ 9).1.length ∧
    (∀ s ∈ (broadcastTelemetry ⟨[⟨1⟩, ⟨2⟩], [], [("d1", [⟨1⟩, ⟨2⟩])]⟩
        (fun c => if c = ⟨1⟩ then 1 else 3)
        ⟨some "telemetry", some "d1", none, none, none⟩ 9).1,
      (fun c => if c = ⟨1⟩ then 1 else 3) s.1 = 1) :=
  telemetry_count_matches_open_deliveries _ _ _ _

/-- C8: a connection already in device d1's subscriber set that sends a
subscribe frame for a different device d2 ends up in both sets — the old
membership is not vacated — and is sent a subscription_confirmed reply
carrying d2 and a timestamp (server.js lines 76-91). -/
theorem second_subscribe_multi_membership (st : Clients)
    (last ready : Conn → Nat) (ws : Conn) (d1 d2 : String)
    (cs : List Conn) (now : Nat)
    (h1 : lookupSubs st.deviceSubscriptions d1 = some cs) (hc : ws ∈ cs)
    (hd2 : d2 ≠ "") (hne : d1 ≠ d2) :
    (∃ cs1, lookupSubs (handleMessage st last ready ws
        (some ⟨some "subscribe", some d2, none, none, none⟩) now).clients.deviceSubscriptions
        d1 = some cs1 ∧ ws ∈ cs1) ∧
    (∃ cs2, lookupSubs (handleMessage st last ready ws
        (some ⟨some "subscribe", some d2, none, none, none⟩) now).clients.deviceSubscriptions
        d2 = some cs2 ∧ ws ∈ cs2) ∧
    (ws, OutMsg.subscriptionConfirmed d2 (tsOf now))
      ∈ (handleMessage st last ready ws
        (some ⟨some "subscribe", some d2, none, none, none⟩) now).sends := by
  have hstep : handleMessage st last ready ws
      (some ⟨some "subscribe", some d2, none, none, none⟩) now
      = ⟨{ st with deviceSubscriptions := subsAdd st.deviceSubscriptions d2 ws },
         Function.update last ws now,
         [(ws, OutMsg.subscriptionConfirmed d2 (tsOf now))]⟩ := by
    simp [handleMessage, truthyS, hd2]
  rw [hstep]
  refine ⟨?_, ?_, List.mem_singleton.mpr rfl⟩
  · rw [lookupSubs_subsAdd_ne st.deviceSubscriptions d2 d1 ws hne]
    exact ⟨cs, h1, hc⟩
  · exact lookupSubs_subsAdd_self st.deviceSubscriptions d2 ws

/-- Closed instance of multi-membership: a consumer subscribed to d1 that
subscribes to d2 is in both sets and receives the d2 confirmation. -/
theorem second_subscribe_witness :
    (∃ cs1, lookupSubs (handleMessage ⟨[⟨1⟩], [], [("d1", [⟨1⟩])]⟩
        (fun _ => 0) (fun _ => 1) ⟨1⟩
        (some ⟨some "subscribe", some "d2", none, none, none⟩) 7).clients.deviceSubscriptions
        "d1" = some cs1 ∧ (⟨1⟩ : Conn) ∈ cs1) ∧
    (∃ cs2, lookupSubs (handleMessage ⟨[⟨1⟩], [], [("d1", [⟨1⟩])]⟩
        (fun _ => 0) (fun _ => 1) ⟨1⟩
        (some ⟨some "subscribe", some "d2", none, none, none⟩) 7).clients.deviceSubscriptions
        "d2" = some cs2 ∧ (⟨1⟩ : Conn) ∈ cs2) ∧
    ((⟨1⟩ : Conn), OutMsg.subscriptionConfirmed "d2" (tsOf 7))
      ∈ (handleMessage ⟨[⟨1⟩], [], [("d1", [⟨1⟩])]⟩
        (fun _ => 0) (fun _ => 1) ⟨1⟩
        (some ⟨some "subscribe", some "d2", none, none, none⟩) 7).sends :=
  second_subscribe_multi_membership ⟨[⟨1⟩], [], [("d1", [⟨1⟩])]⟩
    (fun _ => 0) (fun _ => 1) ⟨1⟩ "d1" "d2" [⟨1⟩] 7
    (by decide) (by decide) (by decide) (by decide)

/-- C10: a parsed subscribe frame whose deviceId is falsy (absent or empty)
changes no registry or subscription state, sends nothing back, and does not
close the connection — yet, like every successfully parsed frame of any
type, it refreshes the sender's lastActivity timestamp. -/
theorem subscribe_without_deviceId_ignored (st : Clients)
    (last ready : Conn → Nat) (ws : Conn) (data : MsgData) (now : Nat)
    (hty : data.type = some "subscribe")
    (hdev : truthyS data.deviceId = false) :
    (handleMessage st last ready ws (some data) now).clients = st ∧
    (handleMessage st last ready ws (some data) now).sends = [] ∧
    (∀ d : MsgData,
      (handleMessage st last ready ws (some d) now).lastActivity ws = now) := by
  refine ⟨?_, ?_, ?_⟩
  · simp [handleMessage, hty, hdev]
  · simp [handleMessage, hty, hdev]
  · intro d
    simp only [handleMessage]
    split
    · simp [Function.update_same]
    · split
      · simp [Function.update_same]
      · split
        · simp [Function.update_same]
        · split
          · split
            · simp [Function.update_same]
            · simp [Function.update_same]
          · simp [Function.update_same]

/-- Closed instance: a subscribe frame with no deviceId leaves the state
alone, sends nothing, and still refreshes lastActivity. -/
theorem subscribe_without_deviceId_witness :
    (handleMessage ⟨[⟨7⟩], [], []⟩ (fun _ => 0) (fun _ => 1) ⟨7⟩
      (some ⟨some "subscribe", none, none, none, none⟩) 42).clients
      = ⟨[⟨7⟩], [], []⟩ ∧
    (handleMessage ⟨[⟨7⟩], [], []⟩ (fun _ => 0) (fun _ => 1) ⟨7⟩
      (some ⟨some "subscribe", none, none, none, none⟩) 42).sends = [] ∧
    (∀ d : MsgData,
      (handleMessage ⟨[⟨7⟩], [], []⟩ (fun _ => 0) (fun _ => 1) ⟨7⟩
        (some d) 42).lastActivity ⟨7⟩ = 42) :=
  subscribe_without_deviceId_ignored ⟨[⟨7⟩], [], []⟩ (fun _ => 0)
    (fun _ => 1) ⟨7⟩ ⟨some "subscribe", none, none, none, none⟩ 42 rfl rfl

/-- The consumers-only invariant of the Subscription Index: every member of
every device's subscriber set is a consumer connection. -/
def consumersOnly (st : Clients) : Prop :=
  ∀ p ∈ st.deviceSubscriptions, ∀ c ∈ p.2, c ∈ st.consumers

/-- The close handler preserves the consumers-only invariant. -/
theorem consumersOnly_handleClose (st : Clients) (x : Conn)
    (h : consumersOnly st) : consumersOnly (handleClose st x) := by
  intro p hp c hc
  have hp1 := (List.mem_filter.mp hp).1
  obtain ⟨q, hq, rfl⟩ := List.mem_map.mp hp1
  have hc2 := List.mem_filter.mp hc
  exact List.mem_filter.mpr ⟨h q hq c hc2.1, hc2.2⟩

/-- A sweep tick preserves the consumers-only invariant: a subscriber that
survives the subscription prune was not terminated, hence survives in the
consumer set as well. -/
theorem consumersOnly_sweepTick (st : Clients) (last ready : Conn → Nat)
    (now : Nat) (h : consumersOnly st) :
    consumersOnly (sweepTick st last ready now).clients := by
  intro p hp c hc
  have hp1 := (List.mem_filter.mp hp).1
  obtain ⟨q, hq, rfl⟩ := List.mem_map.mp hp1
  have hc2 := List.mem_filter.mp hc
  have hcons := h q hq c hc2.1
  refine List.mem_filter.mpr ⟨hcons, ?_⟩
  cases hidle : idle last now c with
  | false => simp
  | true =>
    exfalso
    have hmem : c ∈ st.consumers.filter (fun y => idle last now y) :=
      List.mem_filter.mpr ⟨hcons, hidle⟩
    have hcont : (st.consumers.filter (fun y => idle last now y)).contains c
        = true := List.elem_iff.mpr hmem
    have := hc2.2
    simp only [Bool.not_eq_true'] at this
    rw [hcont] at this
    simp at this

/-- Admitting a connection preserves the consumers-only invariant: a
producer joins no subscriber set, and a consumer joining one also joins the
consumer set. -/
theorem consumersOnly_handleConnection (st : Clients) (ws : Conn)
    (ctp devp : Option String) (h : consumersOnly st) :
    consumersOnly (handleConnection st ws ctp devp) := by
  simp only [handleConnection]
  split
  · exact h
  · split
    · intro p hp c hc
      rcases subsAdd_mem_cases hp hc with rfl | ⟨q, hq, hx⟩
      · exact mem_setAdd_self _ _
      · exact mem_setAdd_of_mem _ (h q hq c hx)
    · intro p hp c hc
      exact mem_setAdd_of_mem _ (h p hp c hc)

/-- A frame from a connection that is a consumer preserves the
consumers-only invariant. -/
theorem consumersOnly_handleMessage (st : Clients) (last ready : Conn → Nat)
    (ws : Conn) (parsed : Option MsgData) (now : Nat)
    (h : consumersOnly st) (hws : ws ∈ st.consumers) :
    consumersOnly (handleMessage st last ready ws parsed now).clients := by
  cases parsed with
  | none => exact h
  | some data =>
    simp only [handleMessage]
    split
    · exact h
    · split
      · exact h
      · split
        · exact h
        · split
          · split
            · intro p hp c hc
              rcases subsAdd_mem_cases hp hc with rfl | ⟨q, hq, hx⟩
              · exact hws
              · exact h q hq c hx
            · exact h
          · exact h

/-- Folding the close handler over any list of sockets preserves the
consumers-only invariant. -/
theorem consumersOnly_foldClose (l : List Conn) (st : Clients)
    (h : consumersOnly st) : consumersOnly (l.foldl handleClose st) := by
  induction l generalizing st with
  | nil => exact h
  | cons x xs ih => exact ih _ (consumersOnly_handleClose st x h)

/-- C2 counterexample: admit a producer, then let it send a subscribe frame
for device d1.  The message handler never checks the connection's role
(server.js lines 76-91), so the producer lands in d1's subscriber set while
being a member of the producer set and not of the consumer set — the
consumers-only invariant is not preserved by a subscribe frame from an
arbitrary connection. -/
theorem subscribe_from_producer_breaks_consumers_only :
    (handleMessage (handleConnection ⟨[], [], []⟩ ⟨0⟩ (some "producer") none)
      (fun _ => 0) (fun _ => 1) ⟨0⟩
      (some ⟨some "subscribe", some "d1", none, none, none⟩) 5).clients.deviceSubscriptions
      = [("d1", [⟨0⟩])] ∧
    (⟨0⟩ : Conn) ∉ (handleMessage (handleConnection ⟨[], [], []⟩ ⟨0⟩
      (some "producer") none) (fun _ => 0) (fun _ => 1) ⟨0⟩
      (some ⟨some "subscribe", some "d1", none, none, none⟩) 5).clients.consumers ∧
    (⟨0⟩ : Conn) ∈ (handleMessage (handleConnection ⟨[], [], []⟩ ⟨0⟩
      (some "producer") none) (fun _ => 0) (fun _ => 1) ⟨0⟩
      (some ⟨some "subscribe", some "d1", none, none, none⟩) 5).clients.producers := by
  decide

/-- C2 (amended): the consumers-only invariant is preserved by connection
admit, by a subscribe frame from a connection that is a consumer, by the
close cleanup, and by the sweep cleanup (with the close events of the
sockets it terminates) — but not by a subscribe frame from a producer. -/
theorem consumers_only_invariant_amended (st : Clients) (ws : Conn)
    (ctp devp : Option String) (last ready : Conn → Nat)
    (parsed : Option MsgData) (now : Nat) (h : consumersOnly st) :
    consumersOnly (handleConnection st ws ctp devp) ∧
    (ws ∈ st.consumers →
      consumersOnly (handleMessage st last ready ws parsed now).clients) ∧
    consumersOnly (handleClose st ws) ∧
    consumersOnly (sweepTick st last ready now).clients ∧
    consumersOnly (sweepWithCloses st last ready now) :=
  ⟨consumersOnly_handleConnection st ws ctp devp h,
   fun hws => consumersOnly_handleMessage st last ready ws parsed now h hws,
   consumersOnly_handleClose st ws h,
   consumersOnly_sweepTick st last ready now h,
   consumersOnly_foldClose _ _ (consumersOnly_sweepTick st last ready now h)⟩

/-- Closed instance of the amended invariant at a concrete state. -/
theorem consumers_only_witness :
    consumersOnly (handleConnection ⟨[⟨1⟩], [⟨2⟩], [("d1", [⟨1⟩])]⟩ ⟨1⟩
      (some "consumer") (some "d1")) ∧
    consumersOnly (handleMessage ⟨[⟨1⟩], [⟨2⟩], [("d1", [⟨1⟩])]⟩
      (fun _ => 0) (fun _ => 1) ⟨1⟩
      (some ⟨some "subscribe", some "d2", none, none, none⟩) 3).clients ∧
    consumersOnly (handleClose ⟨[⟨1⟩], [⟨2⟩], [("d1", [⟨1⟩])]⟩ ⟨1⟩) ∧
    consumersOnly (sweepTick ⟨[⟨1⟩], [⟨2⟩], [("d1", [⟨1⟩])]⟩
      (fun _ => 0) (fun _ => 1) 3).clients ∧
    consumersOnly (sweepWithCloses ⟨[⟨1⟩], [⟨2⟩], [("d1", [⟨1⟩])]⟩
      (fun _ => 0) (fun _ => 1) 3) :=
  have ht := consumers_only_invariant_amended ⟨[⟨1⟩], [⟨2⟩], [("d1", [⟨1⟩])]⟩
    ⟨1⟩ (some "consumer") (some "d1") (fun _ => 0) (fun _ => 1)
    (some ⟨some "subscribe", some "d2", none, none, none⟩) 3
    (by unfold consumersOnly ; decide)
  ⟨ht.1, ht.2.1 (by decide), ht.2.2.1, ht.2.2.2.1, ht.2.2.2.2⟩

/-- A socket is fully purged from a state: absent from both role sets and
from every device's subscriber set. -/
def removedEverywhere (st : Clients) (c : Conn) : Prop :=
  c ∉ st.producers ∧ c ∉ st.consumers ∧
    ∀ p ∈ st.deviceSubscriptions, c ∉ p.2

/-- The close handler purges the closing socket everywhere. -/
theorem handleClose_removes (st : Clients) (c : Conn) :
    removedEverywhere (handleClose st c) c := by
  refine ⟨?_, ?_, ?_⟩
  · intro hc
    have := (List.mem_filter.mp hc).2
    simp at this
  · intro hc
    have := (List.mem_filter.mp hc).2
    simp at this
  · intro p hp hc
    have hp1 := (List.mem_filter.mp hp).1
    obtain ⟨q, hq, rfl⟩ := List.mem_map.mp hp1
    have := (List.mem_filter.mp hc).2
    simp at this

/-- The close handler of another socket never re-adds a purged socket. -/
theorem handleClose_keeps_removed (st : Clients) (x c : Conn)
    (h : removedEverywhere st c) : removedEverywhere (handleClose st x) c := by
  obtain ⟨h1, h2, h3⟩ := h
  refine ⟨?_, ?_, ?_⟩
  · intro hc
    exact h1 (List.mem_filter.mp hc).1
  · intro hc
    exact h2 (List.mem_filter.mp hc).1
  · intro p hp hc
    have hp1 := (List.mem_filter.mp hp).1
    obtain ⟨q, hq, rfl⟩ := List.mem_map.mp hp1
    exact h3 q hq (List.mem_filter.mp hc).1

/-- Folding close handlers keeps a purged socket purged. -/
theorem foldClose_keeps_removed (l : List Conn) (st : Clients) (c : Conn)
    (h : removedEverywhere st c) :
    removedEverywhere (l.foldl handleClose st) c := by
  induction l generalizing st with
  | nil => exact h
  | cons x xs ih => exact ih _ (handleClose_keeps_removed st x c h)

/-- Running the close handler of every socket in a list purges each of
them. -/
theorem foldClose_removes (l : List Conn) (st : Clients) (c : Conn)
    (hc : c ∈ l) : removedEverywhere (l.foldl handleClose st) c := by
  induction l generalizing st with
  | nil => cases hc
  | cons x xs ih =>
    rcases List.mem_cons.mp hc with rfl | hmem
    · exact foldClose_keeps_removed xs _ c (handleClose_removes st c)
    · exact ih _ hmem

/-- C4: every registered connection past the 120000 ms idle deadline at a
sweep tick is terminated by that tick, and — once the close events fired by
`terminate()` have run — is absent from both role sets and from every
device's subscriber set.  (The tick itself already deletes an idle consumer
from the consumer set and from every subscriber set, and an idle producer
from the producer set; the producer's subscriber-set cleanup happens in its
close handler.) -/
theorem idle_connection_purged_by_sweep (st : Clients)
    (last ready : Conn → Nat) (now : Nat) (c : Conn)
    (hreg : c ∈ st.producers ∨ c ∈ st.consumers)
    (hidle : idle last now c = true) :
    c ∈ (sweepTick st last ready now).terminated ∧
    c ∉ (sweepWithCloses st last ready now).producers ∧
    c ∉ (sweepWithCloses st last ready now).consumers ∧
    ∀ p ∈ (sweepWithCloses st last ready now).deviceSubscriptions,
      c ∉ p.2 := by
  have hterm : c ∈ (sweepTick st last ready now).terminated := by
    simp only [sweepTick, List.mem_append, List.mem_filter]
    rcases hreg with h | h
    · exact Or.inl ⟨h, hidle⟩
    · exact Or.inr ⟨h, hidle⟩
  have hrem : removedEverywhere (sweepWithCloses st last ready now) c :=
    foldClose_removes _ _ c hterm
  exact ⟨hterm, hrem.1, hrem.2.1, hrem.2.2⟩

/-- Closed instance of the purge property: a consumer idle since time 0 is
terminated at the tick at 200001 ms and purged everywhere. -/
theorem idle_purged_witness :
    (⟨1⟩ : Conn) ∈ (sweepTick ⟨[⟨1⟩], [⟨2⟩], [("d1", [⟨1⟩])]⟩ (fun _ => 0)
      (fun _ => 1) 200001).terminated ∧
    (⟨1⟩ : Conn) ∉ (sweepWithCloses ⟨[⟨1⟩], [⟨2⟩], [("d1", [⟨1⟩])]⟩
      (fun _ => 0) (fun _ => 1) 200001).producers ∧
    (⟨1⟩ : Conn) ∉ (sweepWithCloses ⟨[⟨1⟩], [⟨2⟩], [("d1", [⟨1⟩])]⟩
      (fun _ => 0) (fun _ => 1) 200001).consumers ∧
    ∀ p ∈ (sweepWithCloses ⟨[⟨1⟩], [⟨2⟩], [("d1", [⟨1⟩])]⟩ (fun _ => 0)
      (fun _ => 1) 200001).deviceSubscriptions, (⟨1⟩ : Conn) ∉ p.2 :=
  idle_connection_purged_by_sweep ⟨[⟨1⟩], [⟨2⟩], [("d1", [⟨1⟩])]⟩
    (fun _ => 0) (fun _ => 1) 200001 ⟨1⟩ (Or.inr (by decide)) (by decide)

/-- The recipients of a telemetry broadcast are its send list's first
components. -/
theorem broadcastTelemetry_fst (st : Clients) (ready : Conn → Nat)
    (data : MsgData) (now : Nat) :
    (broadcastTelemetry st ready data now).1.map Prod.fst
      = telemetryRecipients st ready data := by
  simp only [broadcastTelemetry, List.map_map]
  exact List.map_id _

/-- When the event's resolved device id is the nonempty `D`, the first loop
targets exactly the open members of D's entry (or nobody when the entry is
absent). -/
theorem telemetrySubsTargets_eq (st : Clients) (ready : Conn → Nat)
    (data : MsgData) (D : String)
    (hD : jsOrS data.deviceId data.device = some D) (hDne : D ≠ "") :
    telemetrySubsTargets st ready data
      = match lookupSubs st.deviceSubscriptions D with
        | some cs => cs.filter (fun c => ready c == 1)
        | none => [] := by
  simp [telemetrySubsTargets, hD, truthyS, hDne]

/-- A socket that is a member of an entry found for device `D` is counted
as subscribed to a specific device. -/
theorem isSubscribed_of_lookup (st : Clients) (D : String) (cs : List Conn)
    (c : Conn) (hlook : lookupSubs st.deviceSubscriptions D = some cs)
    (hc : c ∈ cs) :
    isSubscribedToSpecificDevice st.deviceSubscriptions c = true := by
  unfold lookupSubs at hlook
  obtain ⟨e, hf, he2⟩ := Option.map_eq_some'.mp hlook
  unfold isSubscribedToSpecificDevice
  rw [List.any_eq_true]
  refine ⟨e, List.mem_of_find?_eq_some hf, ?_⟩
  exact List.elem_iff.mpr (he2 ▸ hc)

/-- An entry found by lookup is an entry of the index, so its subscriber
list inherits the index's no-duplicates property. -/
theorem lookup_nodup (st : Clients) (D : String) (cs : List Conn)
    (hnodupS : ∀ p ∈ st.deviceSubscriptions, p.2.Nodup)
    (hlook : lookupSubs st.deviceSubscriptions D = some cs) : cs.Nodup := by
  unfold lookupSubs at hlook
  obtain ⟨e, hf, he2⟩ := Option.map_eq_some'.mp hlook
  have := hnodupS e (List.mem_of_find?_eq_some hf)
  rw [he2] at this
  exact this

/-- C1: for a telemetry event whose resolved device id is `D` (nonempty),
in a state whose consumer set and subscriber sets are duplicate-free:
an open member of D's subscriber set receives the event exactly once; an
open consumer in no device's subscriber set receives it exactly once; and a
consumer that is in some device's subscriber set but not in D's receives
nothing. -/
theorem telemetry_fanout_exactly_once (st : Clients) (ready : Conn → Nat)
    (data : MsgData) (now : Nat) (D : String) (c : Conn)
    (hD : jsOrS data.deviceId data.device = some D) (hDne : D ≠ "")
    (hnodupC : st.consumers.Nodup)
    (hnodupS : ∀ p ∈ st.deviceSubscriptions, p.2.Nodup) :
    (∀ cs, lookupSubs st.deviceSubscriptions D = some cs → c ∈ cs →
      ready c = 1 →
      ((broadcastTelemetry st ready data now).1.map Prod.fst).count c = 1) ∧
    (c ∈ st.consumers →
      isSubscribedToSpecificDevice st.deviceSubscriptions c = false →
      ready c = 1 →
      ((broadcastTelemetry st ready data now).1.map Prod.fst).count c = 1) ∧
    (c ∈ st.consumers →
      isSubscribedToSpecificDevice st.deviceSubscriptions c = true →
      (∀ cs, lookupSubs st.deviceSubscriptions D = some cs → c ∉ cs) →
      ((broadcastTelemetry st ready data now).1.map Prod.fst).count c = 0) := by
  rw [broadcastTelemetry_fst]
  rw [show telemetryRecipients st ready data
    = telemetrySubsTargets st ready data
      ++ telemetryUnfilteredTargets st ready from rfl]
  refine ⟨?_, ?_, ?_⟩
  · intro cs hlook hc hopen
    rw [List.count_append]
    have hsubT := telemetrySubsTargets_eq st ready data D hD hDne
    rw [hlook] at hsubT
    have h1 : (telemetrySubsTargets st ready data).count c = 1 := by
      rw [hsubT]
      refine List.count_eq_one_of_mem ((lookup_nodup st D cs hnodupS hlook).filter _) ?_
      exact List.mem_filter.mpr ⟨hc, by simp [hopen]⟩
    have h0 : (telemetryUnfilteredTargets st ready).count c = 0 := by
      refine List.count_eq_zero_of_not_mem ?_
      intro hmem
      have := (List.mem_filter.mp hmem).2
      rw [isSubscribed_of_lookup st D cs c hlook hc] at this
      simp at this
    rw [h1, h0]
  · intro hcons hnotsub hopen
    rw [List.count_append]
    have h0 : (telemetrySubsTargets st ready data).count c = 0 := by
      rw [telemetrySubsTargets_eq st ready data D hD hDne]
      cases hlook : lookupSubs st.deviceSubscriptions D with
      | none => rfl
      | some cs =>
        refine List.count_eq_zero_of_not_mem ?_
        intro hmem
        have hc := (List.mem_filter.mp hmem).1
        rw [isSubscribed_of_lookup st D cs c hlook hc] at hnotsub
        cases hnotsub
    have h1 : (telemetryUnfilteredTargets st ready).count c = 1 := by
      refine List.count_eq_one_of_mem (hnodupC.filter _) ?_
      exact List.mem_filter.mpr ⟨hcons, by simp [hnotsub, hopen]⟩
    rw [h0, h1]
  · intro hcons hsubany hnotin
    rw [List.count_append]
    have h0 : (telemetrySubsTargets st ready data).count c = 0 := by
      rw [telemetrySubsTargets_eq st ready data D hD hDne]
      cases hlook : lookupSubs st.deviceSubscriptions D with
      | none => rfl
      | some cs =>
        refine List.count_eq_zero_of_not_mem ?_
        intro hmem
        exact hnotin cs hlook (List.mem_filter.mp hmem).1
    have h1 : (telemetryUnfilteredTargets st ready).count c = 0 := by
      refine List.count_eq_zero_of_not_mem ?_
      intro hmem
      have := (List.mem_filter.mp hmem).2
      rw [hsubany] at this
      simp at this
    rw [h0, h1]

/-- Closed instance of the fan-out scenario of the spec: consumer 1 is
subscribed to d1, consumer 2 is unsubscribed, a producer's telemetry event
for d1 reaches each exactly once. -/
theorem telemetry_fanout_witness :
    ((broadcastTelemetry ⟨[⟨1⟩, ⟨2⟩], [⟨0⟩], [("d1", [⟨1⟩])]⟩ (fun _ => 1)
      ⟨some "telemetry", some "d1", none, none, some 70⟩ 9).1.map
        Prod.fst).count ⟨1⟩ = 1 ∧
    ((broadcastTelemetry ⟨[⟨1⟩, ⟨2⟩], [⟨0⟩], [("d1", [⟨1⟩])]⟩ (fun _ => 1)
      ⟨some "telemetry", some "d1", none, none, some 70⟩ 9).1.map
        Prod.fst).count ⟨2⟩ = 1 :=
  ⟨(telemetry_fanout_exactly_once ⟨[⟨1⟩, ⟨2⟩], [⟨0⟩], [("d1", [⟨1⟩])]⟩
      (fun _ => 1) ⟨some "telemetry", some "d1", none, none, some 70⟩ 9
      "d1" ⟨1⟩ (by decide) (by decide) (by decide) (by decide)).1
    [⟨1⟩] (by decide) (by decide) rfl,
   (telemetry_fanout_exactly_once ⟨[⟨1⟩, ⟨2⟩], [⟨0⟩], [("d1", [⟨1⟩])]⟩
      (fun _ => 1) ⟨some "telemetry", some "d1", none, none, some 70⟩ 9
      "d1" ⟨2⟩ (by decide) (by decide) (by decide) (by decide)).2.1
    (by decide) (by decide) rfl⟩

/-- Closed instance of the no-empty-entries property: closing the last d1
subscriber and sweeping a state at a quiet tick leave no empty entry. -/
theorem no_empty_entries_witness :
    (∀ p ∈ (handleClose ⟨[⟨1⟩], [], [("d1", [⟨1⟩])]⟩
      ⟨1⟩).deviceSubscriptions, p.2 ≠ []) ∧
    (∀ p ∈ (sweepTick ⟨[⟨1⟩], [], [("d1", [⟨1⟩])]⟩ (fun _ => 0)
      (fun _ => 1) 200001).clients.deviceSubscriptions, p.2 ≠ []) :=
  no_empty_subscription_entries ⟨[⟨1⟩], [], [("d1", [⟨1⟩])]⟩ ⟨1⟩
    (fun _ => 0) (fun _ => 1) 200001
